import Mathlib

/-!
Verification model of `internal/core/test-worker/SnapshotManager.ts`:
the snapshot store and matching engine of the test framework.

Conventions of the embedding:
* JavaScript `Map` objects (insertion-ordered, keys unique) are modelled as
  association lists `List (String × α)`; `mapSet` overwrites an existing key
  in place and otherwise appends, `mapGet` looks up the first occurrence —
  exactly the observable behaviour of `Map.set` / `Map.get`.
* File-system paths (`AbsoluteFilePath` from `@internal/path`, which is not
  part of these sources) are opaque strings; operations take the already
  normalized snapshot path.  The file system is a function
  `String → Option String` (path to file content), standing for the
  `exists`/`readFileText` collaborators.
* In-place mutation of a record shared with the path map is rendered by
  storing the updated record back into the map at the same key.
* Thrown exceptions are rendered with `Except`; where the original mutates
  shared state before throwing, the model returns the mutated state
  alongside the error.
-/

namespace SnapshotModel

universe u

/-- `Map.get`: first binding of the key, if any. -/
def mapGet {α : Type u} : List (String × α) → String → Option α
  | [], _ => none
  | (k', v') :: rest, k => if k' = k then some v' else mapGet rest k

/-- `Map.set`: overwrite the binding of an existing key in place, otherwise
append a new binding at the end (JavaScript `Map` insertion order). -/
def mapSet {α : Type u} : List (String × α) → String → α → List (String × α)
  | [], k, v => [(k, v)]
  | (k', v') :: rest, k, v =>
    if k' = k then (k, v) :: rest else (k', v') :: mapSet rest k v

theorem mapGet_mapSet_self {α : Type u} (m : List (String × α)) (k : String) (v : α) :
    mapGet (mapSet m k v) k = some v := by
  induction m with
  | nil => simp [mapSet, mapGet]
  | cons p rest ih =>
    obtain ⟨k', v'⟩ := p
    by_cases h : k' = k <;> simp [mapSet, mapGet, h, ih]

theorem mapGet_mapSet_ne {α : Type u} (m : List (String × α)) (k k' : String) (v : α)
    (h : k' ≠ k) : mapGet (mapSet m k v) k' = mapGet m k' := by
  induction m with
  | nil => simp [mapSet, mapGet, Ne.symm h]
  | cons p rest ih =>
    obtain ⟨k₀, v₀⟩ := p
    by_cases h₀ : k₀ = k
    · subst h₀
      simp [mapSet, mapGet, Ne.symm h]
    · by_cases h₁ : k₀ = k'
      · simp [mapSet, mapGet, h₀, h₁, h]
      · simp [mapSet, mapGet, h₀, h₁, ih]

/-- `SnapshotEntry`: one recorded expectation (SnapshotManager.ts, lines 37–43). -/
structure SnapshotEntry where
  testName : String
  entryName : String
  language : Option String
  value : String
  used : Bool
deriving DecidableEq, Repr

/-- `Snapshot`: one parsed or pending snapshot file (SnapshotManager.ts, lines 45–50). -/
structure Snapshot where
  existsOnDisk : Bool
  used : Bool
  raw : String
  entries : List (String × SnapshotEntry)
deriving DecidableEq, Repr

/-- `buildEntriesKey` (SnapshotManager.ts, lines 54–56). -/
def buildEntriesKey (testName : String) (entryName : String) : String :=
  testName ++ "#" ++ entryName

/-- The run-wide configuration consumed by the manager:
`updateSnapshots` and `freezeSnapshots` from `TestServerRunnerOptions`, and
the partial-runner flag read from `runner.options`. -/
structure RunnerOptions where
  updateSnapshots : Bool
  freezeSnapshots : Bool
  isPartial : Bool
deriving DecidableEq, Repr

/-- `InlineSnapshotUpdate.snapshot`: `boolean | number | string | null`
(SnapshotManager.ts, lines 58–62).  Numbers are modelled as integers. -/
inductive SnapshotValue where
  | str (s : String)
  | num (n : Int)
  | boolean (b : Bool)
  | null
deriving DecidableEq, Repr

/-- `InlineSnapshotUpdate` (SnapshotManager.ts, lines 58–62): `line` is
1-based, `column` 0-based; both are plain naturals here. -/
structure InlineSnapshotUpdate where
  line : Nat
  column : Nat
  snapshot : SnapshotValue
deriving DecidableEq, Repr

/-- A JavaScript value as seen by `testInlineSnapshot`'s `received : unknown`:
the four literal shapes the code tests with `typeof`, `undefined`, and an
opaque non-primitive value. -/
inductive JSValue where
  | str (s : String)
  | num (n : Int)
  | boolean (b : Bool)
  | null
  | undef
  | obj (id : Nat)
deriving DecidableEq, Repr

/-- The literal subset injects into `JSValue`. -/
def SnapshotValue.toJS : SnapshotValue → JSValue
  | .str s => .str s
  | .num n => .num n
  | .boolean b => .boolean b
  | .null => .null

/-- `stringOrPrettyFormat` (SnapshotManager.ts, lines 66–72), parametrized by
the external pretty-printer `prettyFormatToString` (from
`@internal/pretty-format`, not part of these sources). -/
def stringOrPrettyFormat (pf : JSValue → String) (value : JSValue) : String :=
  match value with
  | .str s => s
  | v => pf v

/-- The mutable state of a `SnapshotManager` instance: the path → record map
`snapshots` and the inline update log `inlineSnapshotsUpdates`. -/
structure ManagerState where
  snapshots : List (String × Snapshot)
  inlineSnapshotsUpdates : List InlineSnapshotUpdate
deriving DecidableEq, Repr

/-- The backquote character, written by code point to keep sources readable. -/
def backtick : Char := Char.ofNat 96

/-- `cleanHeading` (SnapshotManager.ts, lines 25–35): strip at most one
leading and one trailing backtick, then trim surrounding whitespace. -/
def cleanHeading (key : String) : String :=
  let cs₁ :=
    match key.data with
    | c :: rest => if c = backtick then rest else c :: rest
    | [] => []
  let cs₂ :=
    match cs₁.reverse with
    | c :: rest => if c = backtick then rest.reverse else cs₁
    | [] => cs₁
  String.mk
    (((cs₂.dropWhile Char.isWhitespace).reverse.dropWhile Char.isWhitespace).reverse)

/-- A node of the snapshot grammar: `Heading{level, text}` or
`CodeBlock{language, text}` (locations are not modelled). -/
inductive Node where
  | Heading (level : Nat) (text : String)
  | CodeBlock (language : Option String) (text : String)
deriving DecidableEq, Repr

/-- Split a string at newline characters (JavaScript `split("\n")`). -/
def splitLinesAux : List Char → List Char → List String
  | [], acc => [String.mk acc.reverse]
  | c :: cs, acc =>
    if c = '\n' then String.mk acc.reverse :: splitLinesAux cs []
    else splitLinesAux cs (c :: acc)

def splitLines (s : String) : List String := splitLinesAux s.data []

/-- Length of the leading run of hash marks. -/
def countHashes : List Char → Nat
  | c :: cs => if c = '#' then countHashes cs + 1 else 0
  | [] => 0

/-- Modelled from the spec: a heading line is one or more hash marks followed
by a space; its level is the number of hash marks and its text the rest of
the line (§4.1, §6). -/
def headingLevel (l : String) : Option (Nat × String) :=
  let n := countHashes l.data
  if n = 0 then none
  else
    match l.data.drop n with
    | c :: rest => if c = ' ' then some (n, String.mk rest) else none
    | [] => none

/-- A line opening a triple-backtick fence, with the rest of the line as the
language tag. -/
def fenceLanguage (l : String) : Option String :=
  match l.data with
  | c₁ :: c₂ :: c₃ :: rest =>
    if c₁ = backtick ∧ c₂ = backtick ∧ c₃ = backtick then some (String.mk rest)
    else none
  | _ => none

/-- The bare closing fence line. -/
def fenceClose : String := "```"

/-- Lines of a code block up to the closing fence, and the lines after it. -/
def splitFence : List String → List String × List String
  | [] => ([], [])
  | l :: rest =>
    if l = fenceClose then ([], rest)
    else (l :: (splitFence rest).1, (splitFence rest).2)

theorem splitFence_snd_length_le (ls : List String) :
    (splitFence ls).2.length ≤ ls.length := by
  induction ls with
  | nil => simp [splitFence]
  | cons l rest ih =>
    simp only [splitFence]
    split
    · simp
    · simpa using Nat.le_succ_of_le ih

/-- Modelled from the spec: the node production of
`createSnapshotParser`/`parseSnapshot` (`./SnapshotParser`, not part of these
sources), on the line structure of §4.1 and §6: a line of hash marks followed
by a space is a heading of that level; a line opening a triple-backtick fence
starts a code block whose language tag is the rest of that line (empty tag =
no language) and whose text is the lines up to the closing bare fence joined
with newlines (all remaining lines if the fence is never closed); every other
line produces no node. -/
def parseLinesAux : Nat → List String → List Node
  | _, [] => []
  | 0, _ :: _ => []
  | fuel + 1, l :: rest =>
    match fenceLanguage l with
    | some language =>
      Node.CodeBlock (if language = "" then none else some language)
          (String.intercalate "\n" (splitFence rest).1) ::
        parseLinesAux fuel (splitFence rest).2
    | none =>
      match headingLevel l with
      | some (level, text) => Node.Heading level text :: parseLinesAux fuel rest
      | none => parseLinesAux fuel rest

/-- Each step consumes at least one line and, by
`splitFence_snd_length_le`, never lengthens the rest, so fuel equal to the
line count always suffices and the `0, _ :: _` case is unreachable. -/
def parseLines (ls : List String) : List Node := parseLinesAux ls.length ls

def parseSnapshot (input : String) : List Node := parseLines (splitLines input)

/-- The structural error of the load walk
(`descriptions.SNAPSHOTS.EXPECTED_CODE_BLOCK_AFTER_HEADING`). -/
inductive SnapshotParseError where
  | expectedCodeBlockAfterHeading
deriving DecidableEq, Repr

/-- The node walk of `loadSnapshot` (SnapshotManager.ts, lines 237–296).
`mode = some testName` is the inner `while` loop opened by a level-2 heading;
a node on which that loop breaks without consuming it is handled here in the
same step the outer loop would take right after shifting it, so every step
consumes at least one node.  On the structural error (a level-3 heading not
immediately followed by a code block) the walk stops, returning the entries
inserted so far — in the original these already sit in the record shared with
the snapshots map. -/
def walkNodes (mode : Option String) (entries : List (String × SnapshotEntry)) :
    List Node → List (String × SnapshotEntry) × Option SnapshotParseError
  | [] => (entries, none)
  | Node.Heading 1 _ :: rest => walkNodes none entries rest
  | Node.Heading 2 text :: rest => walkNodes (some (cleanHeading text)) entries rest
  | Node.Heading 3 text :: rest =>
    match mode with
    | none => walkNodes none entries rest
    | some testName =>
      match rest with
      | Node.CodeBlock language btext :: rest₂ =>
        walkNodes (some testName)
          (mapSet entries (buildEntriesKey testName (cleanHeading text))
            { testName, entryName := cleanHeading text, language,
              value := btext, used := false }) rest₂
      | _ => (entries, some SnapshotParseError.expectedCodeBlockAfterHeading)
  | Node.CodeBlock language btext :: rest =>
    match mode with
    | none => walkNodes none entries rest
    | some testName =>
      walkNodes none
        (mapSet entries (buildEntriesKey testName "0")
          { testName, entryName := "0", language, value := btext, used := false }) rest
  | Node.Heading _ _ :: rest => walkNodes none entries rest

/-- What a `loadSnapshot` call leaves behind: its returned (or thrown) result
and the manager state after it. -/
structure LoadResult where
  result : Except SnapshotParseError (Option Snapshot)
  state : ManagerState
deriving Repr

/-- `loadSnapshot` (SnapshotManager.ts, lines 207–300).  The per-path lock is
elided — the model is sequential — but the cache re-check inside the locked
section is kept.  The original inserts the record (with empty entries) into
the map before the walk and the walk fills its entries in place, so on the
structural error the map still holds the record with the entries walked so
far; the model stores that same final record. -/
def loadSnapshot (fs : String → Option String) (st : ManagerState)
    (path : String) : LoadResult :=
  match fs path with
  | none => { result := .ok none, state := st }
  | some content =>
    match mapGet st.snapshots path with
    | some loadedSnapshot => { result := .ok (some loadedSnapshot), state := st }
    | none =>
      match walkNodes none [] (parseSnapshot content) with
      | (entries, none) =>
        let snapshot : Snapshot :=
          { existsOnDisk := true, used := false, raw := content, entries := entries }
        { result := .ok (some snapshot),
          state := { st with snapshots := mapSet st.snapshots path snapshot } }
      | (entries, some e) =>
        let snapshot : Snapshot :=
          { existsOnDisk := true, used := false, raw := content, entries := entries }
        { result := .error e,
          state := { st with snapshots := mapSet st.snapshots path snapshot } }

/-- The call-frame fields `testInlineSnapshot` consults (`ErrorFrame` from
`@internal/v8`, outside these sources): line and column may each be absent. -/
structure ErrorFrame where
  lineNumber : Option Nat
  columnNumber : Option Nat
deriving DecidableEq, Repr

/-- The status returned by `testInlineSnapshot`. -/
inductive MatchStatus where
  | MATCH
  | NO_MATCH
  | UPDATE
deriving DecidableEq, Repr

/-- The entry filtering of one record in `getModifiedSnapshots`
(SnapshotManager.ts, lines 164–183): start from the record's own entries and,
unless the runner is partial, work on a copy with every unused entry deleted
(rendered as an order-preserving filter); the returned record is a spread
copy carrying the filtered entries. -/
def filterModified (isPartialRunner : Bool) (snapshot : Snapshot) : Snapshot :=
  let filteredEntries :=
    if !isPartialRunner then snapshot.entries.filter (fun p => p.2.used)
    else snapshot.entries
  { snapshot with entries := filteredEntries }

/-- `getModifiedSnapshots` (SnapshotManager.ts, lines 161–187).  The source
iterates `this.snapshots` in insertion order and `set`s each (distinct) key
into a fresh map, i.e. a pointwise map over the bindings. -/
def getModifiedSnapshots (opts : RunnerOptions) (st : ManagerState) :
    List (String × Snapshot) :=
  st.snapshots.map (fun p => (p.1, filterModified opts.isPartial p.2))

/-- What a `get` call leaves behind: its returned (or propagated) result and
the manager state after it. -/
structure GetResult where
  value : Except SnapshotParseError (Option String)
  state : ManagerState
deriving Repr

/-- The tail of `get` once a snapshot record is at hand (SnapshotManager.ts,
lines 360–377): mark the record used, pretend the entry is absent in update
mode, otherwise look the entry up and mark it used. -/
def getLoaded (opts : RunnerOptions) (st : ManagerState) (snapshotPath : String)
    (snapshot : Snapshot) (testName entryName : String) : GetResult :=
  let snapshot₁ := { snapshot with used := true }
  if opts.updateSnapshots then
    { value := .ok none,
      state := { st with snapshots := mapSet st.snapshots snapshotPath snapshot₁ } }
  else
    match mapGet snapshot₁.entries (buildEntriesKey testName entryName) with
    | none =>
      { value := .ok none,
        state := { st with snapshots := mapSet st.snapshots snapshotPath snapshot₁ } }
    | some entry =>
      let entries₂ :=
        mapSet snapshot₁.entries (buildEntriesKey testName entryName)
          { entry with used := true }
      let snapshot₂ := { snapshot₁ with entries := entries₂ }
      { value := .ok (some entry.value),
        state := { st with snapshots := mapSet st.snapshots snapshotPath snapshot₂ } }

/-- `get` (SnapshotManager.ts, lines 348–378), taking the snapshot path
already normalized (`normalizeSnapshotPath` is path arithmetic over
`@internal/path`, outside these sources). -/
def SnapshotManager.get (opts : RunnerOptions) (fs : String → Option String)
    (st : ManagerState) (testName entryName : String) (snapshotPath : String) :
    GetResult :=
  match mapGet st.snapshots snapshotPath with
  | some snapshot => getLoaded opts st snapshotPath snapshot testName entryName
  | none =>
    match loadSnapshot fs st snapshotPath with
    | { result := .error e, state } => { value := .error e, state }
    | { result := .ok none, state } => { value := .ok none, state }
    | { result := .ok (some snapshot), state } =>
      getLoaded opts state snapshotPath snapshot testName entryName

/-- `set` (SnapshotManager.ts, lines 380–417), taking the snapshot path
already normalized. -/
def SnapshotManager.set (st : ManagerState) (testName entryName value : String)
    (language : Option String) (snapshotPath : String) : ManagerState :=
  let snapshot : Snapshot :=
    match mapGet st.snapshots snapshotPath with
    | some s => s
    | none => { raw := "", existsOnDisk := false, used := true, entries := [] }
  let entries₂ :=
    mapSet snapshot.entries (buildEntriesKey testName entryName)
      { testName, entryName, language, value, used := true }
  let snapshot₂ := { snapshot with entries := entries₂ }
  { st with snapshots := mapSet st.snapshots snapshotPath snapshot₂ }

/-- The snapshot value recorded by an inline update (SnapshotManager.ts,
lines 325–333): the raw received value when it is a string, number, boolean
or null, the formatted text otherwise. -/
def inlineSnapshotValue (received : JSValue) (receivedFormat : String) :
    SnapshotValue :=
  match received with
  | .str s => .str s
  | .num n => .num n
  | .boolean b => .boolean b
  | .null => .null
  | _ => .str receivedFormat

/-- `testInlineSnapshot` (SnapshotManager.ts, lines 302–346), parametrized by
the external pretty-printer.  `expected` absent is `expected === undefined`;
the missing-call-frame throw is the `.error` case. -/
def testInlineSnapshot (opts : RunnerOptions) (pf : JSValue → String)
    (callFrame : ErrorFrame) (received : JSValue)
    (expected : Option SnapshotValue) (st : ManagerState) :
    Except String (MatchStatus × ManagerState) :=
  let receivedFormat := stringOrPrettyFormat pf received
  let expectedFormat :=
    stringOrPrettyFormat pf ((expected.map SnapshotValue.toJS).getD JSValue.undef)
  if receivedFormat = expectedFormat then .ok (MatchStatus.MATCH, st)
  else if opts.updateSnapshots || expected.isNone then
    match callFrame.lineNumber, callFrame.columnNumber with
    | some line, some column =>
      if !opts.freezeSnapshots then
        let update : InlineSnapshotUpdate :=
          { line, column, snapshot := inlineSnapshotValue received receivedFormat }
        .ok (MatchStatus.UPDATE,
          { st with inlineSnapshotsUpdates := st.inlineSnapshotsUpdates ++ [update] })
      else .ok (MatchStatus.UPDATE, st)
    | _, _ => .error "Call frame has no line or column"
  else .ok (MatchStatus.NO_MATCH, st)

/-- Leading run of digits of a character list, and the rest. -/
def spanDigits : List Char → List Char × List Char
  | [] => ([], [])
  | c :: cs =>
    if c.isDigit then (c :: (spanDigits cs).1, (spanDigits cs).2)
    else ([], c :: cs)

theorem spanDigits_snd_length_le (cs : List Char) :
    (spanDigits cs).2.length ≤ cs.length := by
  induction cs with
  | nil => simp [spanDigits]
  | cons c cs ih =>
    simp only [spanDigits]
    split
    · simpa using Nat.le_succ_of_le ih
    · simp

/-- Numeric value of a run of digits. -/
def digitsVal (cs : List Char) : Nat :=
  cs.foldl (fun n c => n * 10 + (c.toNat - 48)) 0

/-- Modelled from the spec: `naturalCompare` (`@internal/string-utils`, not
part of these sources) orders strings naturally — embedded runs of digits
compare by numeric value ("2" before "10"), other characters by code point,
and equal pieces continue the comparison (§4.3 step 4, glossary). -/
def naturalLtAux : List Char → List Char → Bool
  | [], [] => false
  | [], _ :: _ => true
  | _ :: _, [] => false
  | a :: as, b :: bs =>
    if a.isDigit && b.isDigit then
      let na := digitsVal (a :: (spanDigits as).1)
      let nb := digitsVal (b :: (spanDigits bs).1)
      if na = nb then naturalLtAux (spanDigits as).2 (spanDigits bs).2
      else decide (na < nb)
    else if a = b then naturalLtAux as bs
    else decide (a < b)
termination_by x y => x.length + y.length
decreasing_by
  all_goals simp only [List.length_cons]
  all_goals try (have ha := spanDigits_snd_length_le as
                 have hb := spanDigits_snd_length_le bs)
  all_goals omega

def naturalLe (a b : String) : Bool := !(naturalLtAux b.data a.data)

/-- Lexicographic order at the code-point level: the observable behaviour of
the default `Array.prototype.sort` string comparator (which compares UTF-16
units; the two agree on the names at issue here). -/
def lexLtAux : List Char → List Char → Bool
  | [], [] => false
  | [], _ :: _ => true
  | _ :: _, [] => false
  | a :: as, b :: bs => if a = b then lexLtAux as bs else decide (a < b)

def lexLe (a b : String) : Bool := !(lexLtAux b.data a.data)

def insertSorted (le : String → String → Bool) (x : String) :
    List String → List String
  | [] => [x]
  | y :: ys => if le x y then x :: y :: ys else y :: insertSorted le x ys

/-- Stable insertion sort by a boolean "comes before or equal" relation: the
observable result of `Array.prototype.sort` with a total comparator. -/
def sortBy (le : String → String → Bool) (xs : List String) : List String :=
  xs.foldr (insertSorted le) []

/-- `pushNewline` inside `buildSnapshot` (SnapshotManager.ts, lines 103–107):
append a blank line unless the last line already is one. -/
def pushNewline (lines : List String) : List String :=
  if lines.getLast? ≠ some "" then lines ++ [""] else lines

/-- A name wrapped in backticks, as the headings of `buildSnapshot` write
them. -/
def tickWrap (s : String) : String := "`" ++ s ++ "`"

/-- The grouping loop of `buildSnapshot` (SnapshotManager.ts, lines
116–126): each used entry is grouped under its test name
(`ExtendedMap.assert` creates the inner map on first sight) and keyed by its
entry name inside the group; unused entries are skipped. -/
def groupStep (m : List (String × List (String × SnapshotEntry)))
    (entry : SnapshotEntry) : List (String × List (String × SnapshotEntry)) :=
  if entry.used then
    let entriesByTestName := (mapGet m entry.testName).getD []
    mapSet m entry.testName (mapSet entriesByTestName entry.entryName entry)
  else m

/-- The per-test emission of `buildSnapshot` (SnapshotManager.ts, lines
131–157): a level-2 heading, then each entry in natural order of its name —
the level-3 heading omitted when the single entry is the sentinel "0" — and
its value fenced with the language tag (empty when none). -/
def buildTestLines (lines : List String) (testName : String)
    (entries : List (String × SnapshotEntry)) : List String :=
  let lines := pushNewline (lines ++ ["## " ++ tickWrap testName])
  let entryNames := sortBy naturalLe (entries.map Prod.fst)
  entryNames.foldl
    (fun lines snapshotName =>
      match mapGet entries snapshotName with
      | none => lines
      | some entry =>
        let language := entry.language.getD ""
        let lines :=
          if snapshotName = "0" ∧ entryNames.length = 1 then lines
          else lines ++ ["### " ++ tickWrap snapshotName]
        let lines := pushNewline lines
        pushNewline (lines ++ ["```" ++ language, entry.value, "```"]))
    lines

/-- `buildSnapshot` (SnapshotManager.ts, lines 93–159), with the path
arguments reduced to the strings actually used: the file's base name and the
relative path printed in the banner. -/
def buildSnapshot (basename relative : String) (entries : List SnapshotEntry) :
    String :=
  let lines := pushNewline ["# " ++ tickWrap basename]
  let lines := lines ++
    ["**DO NOT MODIFY**. This file has been autogenerated. Run " ++
      tickWrap ("rome test " ++ relative ++ " --update-snapshots") ++ " to update."]
  let lines := pushNewline lines
  let grouped := entries.foldl groupStep []
  let testNames := sortBy lexLe (grouped.map Prod.fst)
  let lines := testNames.foldl
    (fun lines testName =>
      match mapGet grouped testName with
      | none => lines
      | some group => buildTestLines lines testName group)
    lines
  String.intercalate "\n" lines

/-! ## Theorems -/

/-- A file system with one malformed snapshot file: a level-2 heading whose
level-3 entry heading is not followed by a code block. -/
def fsBroken : String → Option String :=
  fun p => if p = "/a.test.md" then some "## `t`\n### `a`" else none

/-- C1: the round trip fails on the code as written.  At the failing input —
a used entry whose value is itself a fence line — `buildSnapshot` emits the
value unescaped (the source marks the omission with "TODO escape triple
backquotes", line 152), so the load-path walk over the parsed output
recovers the entry with value `""` instead of the original "```". -/
theorem c1_roundtrip_fails_on_unescaped_fence :
    (walkNodes none [] (parseSnapshot (buildSnapshot "a.test.md" "a.ts"
        [{ testName := "t", entryName := "0", language := none,
           value := "```", used := true }]))).1
      = [(buildEntriesKey "t" "0",
          { testName := "t", entryName := "0", language := none,
            value := "", used := false })]
    ∧ ("" : String) ≠ "```" := by
  exact ⟨by decide, by decide⟩

/-- `mapGet` after the pointwise record projection of
`getModifiedSnapshots`. -/
theorem mapGet_map_filterModified (b : Bool) (l : List (String × Snapshot))
    (path : String) :
    mapGet (l.map (fun p => (p.1, filterModified b p.2))) path
      = (mapGet l path).map (filterModified b) := by
  induction l with
  | nil => simp [mapGet]
  | cons p rest ih =>
    by_cases h : p.1 = path <;> simp [mapGet, h, ih]

/-- C2: for every manager state and path, `getModifiedSnapshots` in
non-partial mode returns the stored record with its entries filtered to
exactly those with `used = true`, and in partial mode returns the stored
record with all its entries unfiltered. -/
theorem c2_getModifiedSnapshots_filtering (opts : RunnerOptions)
    (st : ManagerState) (path : String) :
    mapGet (getModifiedSnapshots opts st) path
      = (mapGet st.snapshots path).map (fun s =>
          { s with entries :=
              if opts.isPartial then s.entries
              else s.entries.filter (fun p => p.2.used) }) := by
  rw [getModifiedSnapshots, mapGet_map_filterModified]
  cases h : mapGet st.snapshots path <;>
    cases hp : opts.isPartial <;>
      simp [filterModified]

/-- C3 counterexample: loading a snapshot file whose level-3 heading is not
followed by a code block raises the structural error, yet a record for that
path IS stored in the snapshots map afterwards — the claim that the cache is
left without any record for the path is false. -/
theorem c3_counterexample_partial_record_cached :
    (loadSnapshot fsBroken ⟨[], []⟩ "/a.test.md").result
        = Except.error SnapshotParseError.expectedCodeBlockAfterHeading
    ∧ mapGet (loadSnapshot fsBroken ⟨[], []⟩ "/a.test.md").state.snapshots
          "/a.test.md"
        = some { existsOnDisk := true, used := false,
                 raw := "## `t`\n### `a`", entries := [] } := by
  exact ⟨rfl, rfl⟩

/-- C3 (amended): when a load fails with the structural error, the error
propagates, but the snapshots map afterwards does hold a record for that
path — the record inserted before the walk, carrying the file's raw text and
the entries converted before the error. -/
theorem c3_amended_error_caches_record (fs : String → Option String)
    (st : ManagerState) (path : String) (e : SnapshotParseError)
    (he : (loadSnapshot fs st path).result = .error e) :
    ∃ content snap, fs path = some content
      ∧ mapGet (loadSnapshot fs st path).state.snapshots path = some snap
      ∧ snap.existsOnDisk = true ∧ snap.used = false ∧ snap.raw = content := by
  cases hc : fs path with
  | none => simp [loadSnapshot, hc] at he
  | some content =>
    cases hm : mapGet st.snapshots path with
    | some s => simp [loadSnapshot, hc, hm] at he
    | none =>
      cases hw : walkNodes none [] (parseSnapshot content) with
      | mk entries err =>
        cases err with
        | none => simp [loadSnapshot, hc, hm, hw] at he
        | some e' =>
          refine ⟨content, ⟨true, false, content, entries⟩, rfl, ?_, rfl, rfl, rfl⟩
          simp [loadSnapshot, hc, hm, hw, mapGet_mapSet_self]

/-- C3 witness: the amended theorem applied at the malformed file. -/
theorem c3_amended_witness :
    (loadSnapshot fsBroken ⟨[], []⟩ "/a.test.md").result
        = Except.error SnapshotParseError.expectedCodeBlockAfterHeading
    ∧ ∃ content snap, fsBroken "/a.test.md" = some content
        ∧ mapGet (loadSnapshot fsBroken ⟨[], []⟩ "/a.test.md").state.snapshots
              "/a.test.md" = some snap
        ∧ snap.existsOnDisk = true ∧ snap.used = false ∧ snap.raw = content :=
  ⟨by rfl, c3_amended_error_caches_record fsBroken ⟨[], []⟩ "/a.test.md"
      SnapshotParseError.expectedCodeBlockAfterHeading (by rfl)⟩

/-- Look an entry up through the manager state: the record at `path`, then
its entry under `key`. -/
def lookupEntry (st : ManagerState) (path key : String) : Option SnapshotEntry :=
  (mapGet st.snapshots path).bind (fun s => mapGet s.entries key)

/-- C4 counterexample: the pairs ("a#b", "c") and ("a", "b#c") are distinct,
yet their composite keys collide ("a#b#c"), so the second `set` on the same
path overwrites the entry stored by the first — afterwards the record holds
a single entry, the second one. -/
theorem c4_counterexample_hash_collision :
    ((("a#b" : String), ("c" : String)) ≠ (("a" : String), ("b#c" : String)))
    ∧ (mapGet (SnapshotManager.set
          (SnapshotManager.set ⟨[], []⟩ "a#b" "c" "v1" none "/s.test.md")
          "a" "b#c" "v2" none "/s.test.md").snapshots "/s.test.md").map
        Snapshot.entries
      = some [("a#b#c",
          { testName := "a", entryName := "b#c", language := none,
            value := "v2", used := true })] := by
  exact ⟨by decide, by rfl⟩

/-- C4 (amended): entries are keyed by the concatenation
`testName ++ "#" ++ entryName`; whenever two `set` calls on the same path
carry distinct composite keys — in particular whenever the names avoid the
"#" delimiter and the pairs differ — the second call does not overwrite the
first, and afterwards both entries are retrievable. -/
theorem c4_amended_distinct_keys_no_overwrite
    (st : ManagerState) (path tn₁ en₁ v₁ tn₂ en₂ v₂ : String)
    (l₁ l₂ : Option String)
    (hk : buildEntriesKey tn₁ en₁ ≠ buildEntriesKey tn₂ en₂) :
    lookupEntry (SnapshotManager.set (SnapshotManager.set st tn₁ en₁ v₁ l₁ path)
        tn₂ en₂ v₂ l₂ path) path (buildEntriesKey tn₁ en₁)
      = some { testName := tn₁, entryName := en₁, language := l₁,
               value := v₁, used := true }
    ∧ lookupEntry (SnapshotManager.set (SnapshotManager.set st tn₁ en₁ v₁ l₁ path)
        tn₂ en₂ v₂ l₂ path) path (buildEntriesKey tn₂ en₂)
      = some { testName := tn₂, entryName := en₂, language := l₂,
               value := v₂, used := true } := by
  cases h₀ : mapGet st.snapshots path with
  | none =>
    constructor <;>
      simp [lookupEntry, SnapshotManager.set, h₀, mapGet_mapSet_self,
        mapGet_mapSet_ne _ _ _ _ hk]
  | some s =>
    constructor <;>
      simp [lookupEntry, SnapshotManager.set, h₀, mapGet_mapSet_self,
        mapGet_mapSet_ne _ _ _ _ hk]

/-- C4 witness: the amended theorem at the distinct keys "a#b" and "a#c". -/
theorem c4_amended_witness :
    buildEntriesKey "a" "b" ≠ buildEntriesKey "a" "c"
    ∧ lookupEntry (SnapshotManager.set (SnapshotManager.set ⟨[], []⟩
          "a" "b" "v1" none "/s.test.md") "a" "c" "v2" none "/s.test.md")
        "/s.test.md" (buildEntriesKey "a" "b")
      = some { testName := "a", entryName := "b", language := none,
               value := "v1", used := true }
    ∧ lookupEntry (SnapshotManager.set (SnapshotManager.set ⟨[], []⟩
          "a" "b" "v1" none "/s.test.md") "a" "c" "v2" none "/s.test.md")
        "/s.test.md" (buildEntriesKey "a" "c")
      = some { testName := "a", entryName := "c", language := none,
               value := "v2", used := true } :=
  ⟨by decide,
   (c4_amended_distinct_keys_no_overwrite ⟨[], []⟩ "/s.test.md"
      "a" "b" "v1" "a" "c" "v2" none none (by decide)).1,
   (c4_amended_distinct_keys_no_overwrite ⟨[], []⟩ "/s.test.md"
      "a" "b" "v1" "a" "c" "v2" none none (by decide)).2⟩

/-- C5 counterexample: a record whose only entry is unused, in non-partial
mode, is NOT removed by `getModifiedSnapshots`: the path is still present in
the output, mapped to the record with an empty entries mapping — the claim
that the path is absent is false. -/
theorem c5_counterexample_empty_record_present :
    mapGet (getModifiedSnapshots ⟨false, false, false⟩
        ⟨[("/s.test.md",
           { existsOnDisk := true, used := true, raw := "r",
             entries := [("t#0",
               { testName := "t", entryName := "0",
                 language := none, value := "v", used := false })] })], []⟩)
        "/s.test.md"
      = some { existsOnDisk := true, used := true, raw := "r", entries := [] } := by
  rfl

/-- C5 (amended): a record with no used entries, in non-partial mode, is not
filtered out of the mapping returned by `getModifiedSnapshots`: its path
remains present, mapped to the record with an empty entries mapping. -/
theorem c5_amended_empty_record_kept (opts : RunnerOptions) (st : ManagerState)
    (path : String) (s : Snapshot)
    (hp : opts.isPartial = false)
    (hm : mapGet st.snapshots path = some s)
    (hu : ∀ p ∈ s.entries, p.2.used = false) :
    mapGet (getModifiedSnapshots opts st) path = some { s with entries := [] } := by
  rw [getModifiedSnapshots, mapGet_map_filterModified, hm]
  have hnil : s.entries.filter (fun p => p.2.used) = [] := by
    rw [List.filter_eq_nil_iff]
    intro a ha
    simp [hu a ha]
  simp [filterModified, hp, hnil]

/-- C5 witness: the amended theorem at a one-entry record whose entry is
unused. -/
theorem c5_amended_witness :
    mapGet (getModifiedSnapshots ⟨false, false, false⟩
        ⟨[("/w.test.md",
           { existsOnDisk := true, used := false, raw := "w",
             entries := [("t#1",
               { testName := "t", entryName := "1",
                 language := some "js", value := "v", used := false })] })], []⟩)
        "/w.test.md"
      = some { existsOnDisk := true, used := false, raw := "w", entries := [] } :=
  c5_amended_empty_record_kept ⟨false, false, false⟩
    ⟨[("/w.test.md",
       { existsOnDisk := true, used := false, raw := "w",
         entries := [("t#1",
           { testName := "t", entryName := "1",
             language := some "js", value := "v", used := false })] })], []⟩
    "/w.test.md"
    { existsOnDisk := true, used := false, raw := "w",
      entries := [("t#1",
        { testName := "t", entryName := "1",
          language := some "js", value := "v", used := false })] }
    rfl (by rfl) (by decide)

/-- C6: with update mode active, `get` on any loaded record returns absent
even when a matching entry exists; the record is marked `used = true`, and
its entries — in particular any matching entry's `used` flag — are left
exactly as they were (the entry is never looked up). -/
theorem c6_update_mode_get_absent (opts : RunnerOptions)
    (fs : String → Option String) (st : ManagerState)
    (path tn en : String) (snapshot : Snapshot)
    (hu : opts.updateSnapshots = true)
    (hm : mapGet st.snapshots path = some snapshot) :
    SnapshotManager.get opts fs st tn en path
      = ⟨.ok none,
         { st with snapshots :=
             mapSet st.snapshots path { snapshot with used := true } }⟩ := by
  simp [SnapshotManager.get, hm, getLoaded, hu]

/-- C6 witness: update-mode `get` at a record holding a matching entry — the
result is absent and the entry keeps `used = false`. -/
theorem c6_update_mode_get_absent_witness :
    SnapshotManager.get ⟨true, false, false⟩ (fun _ => none)
      ⟨[("/s.test.md",
         { existsOnDisk := true, used := false, raw := "r",
           entries := [("t#0",
             { testName := "t", entryName := "0",
               language := none, value := "v", used := false })] })], []⟩
      "t" "0" "/s.test.md"
      = ⟨.ok none,
         ⟨[("/s.test.md",
            { existsOnDisk := true, used := true, raw := "r",
              entries := [("t#0",
                { testName := "t", entryName := "0",
                  language := none, value := "v", used := false })] })], []⟩⟩ :=
  c6_update_mode_get_absent ⟨true, false, false⟩ (fun _ => none)
    ⟨[("/s.test.md",
       { existsOnDisk := true, used := false, raw := "r",
         entries := [("t#0",
           { testName := "t", entryName := "0",
             language := none, value := "v", used := false })] })], []⟩
    "/s.test.md" "t" "0"
    { existsOnDisk := true, used := false, raw := "r",
      entries := [("t#0",
        { testName := "t", entryName := "0",
          language := none, value := "v", used := false })] }
    rfl (by rfl)

/-- C7: an update-worthy inline mismatch — the formatted texts differ and
update mode is on or no expected value was supplied — with a valid call
frame and freeze mode off appends exactly one update to the inline update
log, carrying the frame's line and column and a snapshot value equal to the
raw received value when it is a string, number, boolean or null and to the
formatted text otherwise (`inlineSnapshotValue`), and returns UPDATE. -/
theorem c7_inline_update_appends (opts : RunnerOptions) (pf : JSValue → String)
    (callFrame : ErrorFrame) (received : JSValue)
    (expected : Option SnapshotValue) (st : ManagerState) (line column : Nat)
    (hl : callFrame.lineNumber = some line)
    (hc : callFrame.columnNumber = some column)
    (hne : stringOrPrettyFormat pf received
      ≠ stringOrPrettyFormat pf ((expected.map SnapshotValue.toJS).getD JSValue.undef))
    (hsave : opts.updateSnapshots = true ∨ expected = none)
    (hfreeze : opts.freezeSnapshots = false) :
    testInlineSnapshot opts pf callFrame received expected st
      = .ok (MatchStatus.UPDATE,
          { st with inlineSnapshotsUpdates := st.inlineSnapshotsUpdates
              ++ [{ line := line, column := column,
                    snapshot := inlineSnapshotValue received
                      (stringOrPrettyFormat pf received) }] }) := by
  have hsave' : (opts.updateSnapshots || expected.isNone) = true := by
    rcases hsave with h | h <;> simp [h]
  simp [testInlineSnapshot, hne, hsave', hl, hc, hfreeze]

/-- C7 witness: an inline mismatch of "xyz" against "abc" with update mode on
appends exactly `{line := 3, column := 5, snapshot := "xyz"}` and returns
UPDATE. -/
theorem c7_inline_update_appends_witness :
    testInlineSnapshot ⟨true, false, false⟩ (fun _ => "[pretty]")
        ⟨some 3, some 5⟩ (JSValue.str "xyz") (some (SnapshotValue.str "abc"))
        ⟨[], []⟩
      = .ok (MatchStatus.UPDATE,
          ⟨[], [{ line := 3, column := 5,
                  snapshot := SnapshotValue.str "xyz" }]⟩) :=
  c7_inline_update_appends ⟨true, false, false⟩ (fun _ => "[pretty]")
    ⟨some 3, some 5⟩ (JSValue.str "xyz") (some (SnapshotValue.str "abc"))
    ⟨[], []⟩ 3 5 rfl rfl (by decide) (Or.inl rfl) rfl

/-- C8: an update-worthy inline mismatch with a valid call frame while
freeze mode is active still returns UPDATE, but the manager state — the
inline update log and the snapshots mapping alike — is left exactly as it
was. -/
theorem c8_freeze_update_state_unchanged (opts : RunnerOptions)
    (pf : JSValue → String) (callFrame : ErrorFrame) (received : JSValue)
    (expected : Option SnapshotValue) (st : ManagerState) (line column : Nat)
    (hl : callFrame.lineNumber = some line)
    (hc : callFrame.columnNumber = some column)
    (hne : stringOrPrettyFormat pf received
      ≠ stringOrPrettyFormat pf ((expected.map SnapshotValue.toJS).getD JSValue.undef))
    (hsave : opts.updateSnapshots = true ∨ expected = none)
    (hfreeze : opts.freezeSnapshots = true) :
    testInlineSnapshot opts pf callFrame received expected st
      = .ok (MatchStatus.UPDATE, st) := by
  have hsave' : (opts.updateSnapshots || expected.isNone) = true := by
    rcases hsave with h | h <;> simp [h]
  simp [testInlineSnapshot, hne, hsave', hl, hc, hfreeze]

/-- C8 witness: the freeze-mode call at the same mismatch returns UPDATE and
leaves the state untouched. -/
theorem c8_freeze_update_state_unchanged_witness :
    testInlineSnapshot ⟨true, true, false⟩ (fun _ => "[pretty]")
        ⟨some 3, some 5⟩ (JSValue.str "xyz") (some (SnapshotValue.str "abc"))
        ⟨[("/s.test.md",
           { existsOnDisk := true, used := false, raw := "r", entries := [] })],
         []⟩
      = .ok (MatchStatus.UPDATE,
          ⟨[("/s.test.md",
             { existsOnDisk := true, used := false, raw := "r", entries := [] })],
           []⟩) :=
  c8_freeze_update_state_unchanged ⟨true, true, false⟩ (fun _ => "[pretty]")
    ⟨some 3, some 5⟩ (JSValue.str "xyz") (some (SnapshotValue.str "abc"))
    ⟨[("/s.test.md",
       { existsOnDisk := true, used := false, raw := "r", entries := [] })],
     []⟩ 3 5 rfl rfl (by decide) (Or.inl rfl) rfl

/-- C9 counterexample: a `set` on a path whose record already exists with
`used = false` inserts its entry but leaves the record-level `used` flag
false — the claim that the record's `used` is true after any entry write is
false. -/
theorem c9_counterexample_set_keeps_record_unused :
    (mapGet (SnapshotManager.set
        ⟨[("/s.test.md",
           { existsOnDisk := true, used := false, raw := "", entries := [] })],
         []⟩
        "t" "0" "v" none "/s.test.md").snapshots "/s.test.md").map Snapshot.used
      = some false
    ∧ lookupEntry (SnapshotManager.set
        ⟨[("/s.test.md",
           { existsOnDisk := true, used := false, raw := "", entries := [] })],
         []⟩
        "t" "0" "v" none "/s.test.md") "/s.test.md" (buildEntriesKey "t" "0")
      = some { testName := "t", entryName := "0", language := none,
               value := "v", used := true } := by
  exact ⟨rfl, rfl⟩

/-- C9 (amended): the record-level `used` flag is true after a `get` that
finds the record, and after a `set` that creates the record; but a `set` on
an already existing record leaves the record-level flag exactly as it was
(only the entry is written). -/
theorem c9_amended_record_used_flag (opts : RunnerOptions)
    (fs : String → Option String) (st st' : ManagerState)
    (path tn en v : String) (l : Option String) (snapshot : Snapshot)
    (h : mapGet st.snapshots path = some snapshot)
    (h' : mapGet st'.snapshots path = none) :
    ((mapGet (SnapshotManager.get opts fs st tn en path).state.snapshots
        path).map Snapshot.used = some true)
    ∧ ((mapGet (SnapshotManager.set st' tn en v l path).snapshots
        path).map Snapshot.used = some true)
    ∧ ((mapGet (SnapshotManager.set st tn en v l path).snapshots
        path).map Snapshot.used = some snapshot.used) := by
  refine ⟨?_, ?_, ?_⟩
  · cases hu : opts.updateSnapshots
    · cases he : mapGet snapshot.entries (buildEntriesKey tn en) <;>
        simp [SnapshotManager.get, h, getLoaded, hu, he, mapGet_mapSet_self]
    · simp [SnapshotManager.get, h, getLoaded, hu, mapGet_mapSet_self]
  · simp [SnapshotManager.set, h', mapGet_mapSet_self]
  · simp [SnapshotManager.set, h, mapGet_mapSet_self]

/-- C9 witness: the amended theorem at a cached record and an empty cache. -/
theorem c9_amended_record_used_flag_witness :
    ((mapGet (SnapshotManager.get ⟨false, false, false⟩ (fun _ => none)
        ⟨[("/s.test.md",
           { existsOnDisk := true, used := false, raw := "", entries := [] })],
         []⟩ "t" "0" "/s.test.md").state.snapshots
        "/s.test.md").map Snapshot.used = some true)
    ∧ ((mapGet (SnapshotManager.set ⟨[], []⟩ "t" "0" "v" none
        "/s.test.md").snapshots "/s.test.md").map Snapshot.used = some true)
    ∧ ((mapGet (SnapshotManager.set
        ⟨[("/s.test.md",
           { existsOnDisk := true, used := false, raw := "", entries := [] })],
         []⟩ "t" "0" "v" none "/s.test.md").snapshots
        "/s.test.md").map Snapshot.used = some false) :=
  c9_amended_record_used_flag ⟨false, false, false⟩ (fun _ => none)
    ⟨[("/s.test.md",
       { existsOnDisk := true, used := false, raw := "", entries := [] })],
     []⟩ ⟨[], []⟩ "/s.test.md" "t" "0" "v" none
    { existsOnDisk := true, used := false, raw := "", entries := [] }
    (by rfl) (by rfl)

end SnapshotModel
